import Mathlib

/-!
Verification development for the mcp-weather repository.

This file gives a shallow embedding, in Lean 4, of the location-resolution
core of the repository: the location-string parsers
(`mcp_weather/cache.py` `LocationCache._parse_location`,
`mcp_weather/geocoding_service.py` `GeocodingService._parse_location` — the
latter is textually identical to `mcp_weather/weather_service.py`
`WeatherService._parse_location`), the cache-key normalizations
(`LocationCache._normalize_key` and `core/cache.py`
`RedisCacheClient._generate_key`), the file-backed cache operations
(`LocationData.to_dict/from_dict/is_expired`, `LocationCache.get/set/clean_expired`),
and the geocoding orchestration with its result disambiguation
(`GeocodingService.geocode_location`).

Modelling conventions:
* Python strings are Lean `String`s, manipulated through their `List Char`
  data (Python indexes and slices strings by code point, as `List Char` does).
  Only the ASCII behaviour of `str.lower`/`str.upper`/`str.strip` and of the
  regex class `[,\s]+` is modelled, matching `Char.toLower`/`Char.toUpper`
  and the explicit whitespace set below; every string the repository's
  tables and the claims mention is ASCII.
* Python `datetime` values are instants on an integer time axis measured in
  seconds; `timedelta(days = d)` is `d * 86400`.  `datetime` arithmetic and
  comparison are exact in Python, as they are here.
* A value stored in a cache-entry dict is a `PyVal`.  A string that
  `datetime.fromisoformat` accepts is represented as `PyVal.isoStamp t`
  for the instant `t` it denotes (`isoformat` is a bijection between
  instants and such strings); `PyVal.pstr` represents every other string,
  on which `fromisoformat` raises `ValueError`, and non-string values make
  it raise `TypeError`.
* A Python dict is an association list with distinct keys; `aget` is dict
  lookup (`d.get(k)` / `k in d`) and `aset` is item assignment
  (`d[k] = v`: replace in place if present, else append).
* Fallible Python code (a raised exception) is an `Option`/`Except` result.
-/

namespace McpWeather

/-- Whitespace characters stripped by Python `str.strip()` and matched by
the regex class `\s` (ASCII fragment). -/
def isPyWs (c : Char) : Bool :=
  c = ' ' || c = '\t' || c = '\n' || c = '\x0d' || c = '\x0b' || c = '\x0c'

/-- Python `str.strip()` on the character list: drop leading and trailing
whitespace. -/
def pyStripL (l : List Char) : List Char :=
  ((l.dropWhile isPyWs).reverse.dropWhile isPyWs).reverse

/-- Python `str.strip()`. -/
def pyStrip (s : String) : String :=
  String.mk (pyStripL s.data)

/-- Python `str.lower()` (ASCII). -/
def pyLower (s : String) : String :=
  String.mk (s.data.map Char.toLower)

/-- Python `str.upper()` (ASCII). -/
def pyUpper (s : String) : String :=
  String.mk (s.data.map Char.toUpper)

/-- Boolean list-prefix test. -/
def isPrefixOfL : List Char → List Char → Bool
  | [], _ => true
  | _ :: _, [] => false
  | a :: as, b :: bs => a = b && isPrefixOfL as bs

/-- Boolean list-infix (contiguous sublist) test. -/
def isInfixOfL (needle : List Char) : List Char → Bool
  | [] => isPrefixOfL needle []
  | b :: bs => isPrefixOfL needle (b :: bs) || isInfixOfL needle bs

/-- Python `a in b` substring test on strings. -/
def pyIn (needle hay : String) : Bool :=
  isInfixOfL needle.data hay.data

/-- Python slice `s[:n]` on a string (slicing counts code points). -/
def strTake (n : Nat) (s : String) : String :=
  String.mk (s.data.take n)

/-- Helper for `location.split(',')`: accumulate the current segment
(reversed) while scanning, splitting at every comma. -/
def splitCommaAux : List Char → List Char → List (List Char)
  | acc, [] => [acc.reverse]
  | acc, c :: cs =>
    if c = ',' then acc.reverse :: splitCommaAux [] cs
    else splitCommaAux (c :: acc) cs

/-- Python `[p.strip() for p in location.split(',')]`: the comma-separated
segments of a location string, each stripped.  Like Python's `split`,
this always yields at least one (possibly empty) segment. -/
def segments (location : String) : List String :=
  (splitCommaAux [] location.data).map (fun l => String.mk (pyStripL l))

/-- Dict lookup `d.get(k)`: the value at the first matching key, if any. -/
def aget {α : Type} : List (String × α) → String → Option α
  | [], _ => none
  | (k, v) :: rest, key => if k = key then some v else aget rest key

/-- Dict item assignment `d[k] = v`: replace the value at `k` in place if
the key is present, otherwise append the new pair. -/
def aset {α : Type} : List (String × α) → String → α → List (String × α)
  | [], key, v => [(key, v)]
  | (k, w) :: rest, key, v =>
    if k = key then (k, v) :: rest else (k, w) :: aset rest key v

/-- The `US_STATES` dictionary, identical in
`mcp_weather/cache.py`, `mcp_weather/geocoding_service.py` and
`mcp_weather/weather_service.py`: two-letter code to full state name. -/
def US_STATES : List (String × String) :=
  [("AL", "Alabama"), ("AK", "Alaska"), ("AZ", "Arizona"), ("AR", "Arkansas"),
   ("CA", "California"), ("CO", "Colorado"), ("CT", "Connecticut"), ("DE", "Delaware"),
   ("FL", "Florida"), ("GA", "Georgia"), ("HI", "Hawaii"), ("ID", "Idaho"),
   ("IL", "Illinois"), ("IN", "Indiana"), ("IA", "Iowa"), ("KS", "Kansas"),
   ("KY", "Kentucky"), ("LA", "Louisiana"), ("ME", "Maine"), ("MD", "Maryland"),
   ("MA", "Massachusetts"), ("MI", "Michigan"), ("MN", "Minnesota"), ("MS", "Mississippi"),
   ("MO", "Missouri"), ("MT", "Montana"), ("NE", "Nebraska"), ("NV", "Nevada"),
   ("NH", "New Hampshire"), ("NJ", "New Jersey"), ("NM", "New Mexico"), ("NY", "New York"),
   ("NC", "North Carolina"), ("ND", "North Dakota"), ("OH", "Ohio"), ("OK", "Oklahoma"),
   ("OR", "Oregon"), ("PA", "Pennsylvania"), ("RI", "Rhode Island"), ("SC", "South Carolina"),
   ("SD", "South Dakota"), ("TN", "Tennessee"), ("TX", "Texas"), ("UT", "Utah"),
   ("VT", "Vermont"), ("VA", "Virginia"), ("WA", "Washington"), ("WV", "West Virginia"),
   ("WI", "Wisconsin"), ("WY", "Wyoming"), ("DC", "District of Columbia")]

/-- The derived `US_STATES_REVERSE` dictionary of
`geocoding_service.py`/`weather_service.py`: lowercased full state name to
two-letter code. -/
def US_STATES_REVERSE : List (String × String) :=
  US_STATES.map (fun p => (pyLower p.2, p.1))

/-- The `COUNTRY_VARIATIONS` dictionary of
`geocoding_service.py`/`weather_service.py`. -/
def COUNTRY_VARIATIONS : List (String × String) :=
  [("us", "United States"), ("usa", "United States"), ("u.s.", "United States"),
   ("u.s.a.", "United States"), ("united states of america", "United States"),
   ("uk", "United Kingdom"), ("u.k.", "United Kingdom"), ("gb", "United Kingdom"),
   ("uae", "United Arab Emirates"), ("u.a.e.", "United Arab Emirates"),
   ("ca", "Canada"), ("can", "Canada")]

/-- Python truthiness of an `Optional[str]`: `None` and the empty string
are falsy. -/
def truthy : Option String → Bool
  | none => false
  | some s => !(s = "")

/-- The `LocationCache._parse_location` method of `mcp_weather/cache.py`
(the simple variant: a two-segment second part is checked against
`US_STATES` only; no full-state-name or country-alias tables). -/
def cacheParseLocation (location : String) : String × Option String × Option String :=
  match segments location with
  | [] => ("", none, none)
  | [city] => (city, none, none)
  | [city, second] =>
    if (aget US_STATES (pyUpper second)).isSome then
      (city, some second, some "United States")
    else
      (city, none, some second)
  | city :: second :: third :: rest =>
    let country := if rest.isEmpty then third
                   else String.intercalate ", " (third :: rest)
    (city, some second, some country)

/-- The `GeocodingService._parse_location` method of
`mcp_weather/geocoding_service.py` (textually identical to
`WeatherService._parse_location` in `mcp_weather/weather_service.py`). -/
def geoParseLocation (location : String) : String × Option String × Option String :=
  match segments location with
  | [] => ("", none, none)
  | [city] => (city, none, none)
  | [city, second] =>
    if (aget US_STATES (pyUpper second)).isSome then
      (city, some second, some "United States")
    else
      match aget US_STATES_REVERSE (pyLower second) with
      | some abbr => (city, some abbr, some "United States")
      | none =>
        match aget COUNTRY_VARIATIONS (pyLower second) with
        | some c => (city, none, some c)
        | none => (city, none, some second)
  | city :: second :: third :: rest =>
    let st := match aget US_STATES_REVERSE (pyLower second) with
              | some abbr => abbr
              | none => second
    let co := match aget COUNTRY_VARIATIONS (pyLower third) with
              | some c => c
              | none => third
    let co := if rest.isEmpty then co
              else String.intercalate ", " (third :: rest)
    (city, some st, some co)

/-- The section 4.1 case analysis of the specification, written from the
spec's words (for the refinement claim C3): split on commas and trim;
segment 0 is the city; with exactly two segments, a two-letter US state
code yields that segment as state and country United States, a full US
state name yields its canonical code and country United States, a known
country alias yields the canonical country name, anything else becomes the
country verbatim; with three or more segments, segment 1 becomes the state
(abbreviated when it is a full state name), segment 2 the country
(alias-normalized), and with more than three segments all segments from
index 2 on are rejoined with a comma-space as the country. -/
def parseSpec41 (raw : String) : String × Option String × Option String :=
  let segs := segments raw
  let city := segs.getD 0 ""
  if segs.length ≤ 1 then
    (city, none, none)
  else if segs.length = 2 then
    let seg1 := segs.getD 1 ""
    if (aget US_STATES (pyUpper seg1)).isSome then
      (city, some seg1, some "United States")
    else if h : (aget US_STATES_REVERSE (pyLower seg1)).isSome then
      (city, some ((aget US_STATES_REVERSE (pyLower seg1)).get h), some "United States")
    else if h : (aget COUNTRY_VARIATIONS (pyLower seg1)).isSome then
      (city, none, some ((aget COUNTRY_VARIATIONS (pyLower seg1)).get h))
    else
      (city, none, some seg1)
  else
    let seg1 := segs.getD 1 ""
    let seg2 := segs.getD 2 ""
    let st := (aget US_STATES_REVERSE (pyLower seg1)).getD seg1
    let co :=
      if segs.length = 3 then (aget COUNTRY_VARIATIONS (pyLower seg2)).getD seg2
      else String.intercalate ", " (segs.drop 2)
    (city, some st, some co)

/-- Characters collapsed by the regex `[,\s]+` in
`LocationCache._normalize_key`: commas and whitespace. -/
def isCacheSep (c : Char) : Bool :=
  c = ',' || isPyWs c

/-- Replace every maximal run of characters satisfying `p` by the single
character `rep` (the effect of `re.sub` with a `X+` character-class
pattern).  The flag records whether the scan is inside a run whose
replacement was already emitted. -/
def collapseRunsAux (p : Char → Bool) (rep : Char) : Bool → List Char → List Char
  | _, [] => []
  | inRun, c :: cs =>
    if p c then
      if inRun then collapseRunsAux p rep true cs
      else rep :: collapseRunsAux p rep true cs
    else c :: collapseRunsAux p rep false cs

/-- Replace every maximal run of characters satisfying `p` by `rep`. -/
def collapseRuns (p : Char → Bool) (rep : Char) (l : List Char) : List Char :=
  collapseRunsAux p rep false l

/-- Remove one trailing occurrence of `c`, if present (the effect of
`re.sub` with pattern `c$`). -/
def dropOneTrailing (c : Char) (l : List Char) : List Char :=
  match l.reverse with
  | [] => l
  | x :: rest => if x = c then rest.reverse else l

/-- Python `location.strip().lower()`, the first stage of
`LocationCache._normalize_key`. -/
def pyStripLower (s : String) : String :=
  String.mk ((pyStripL s.data).map Char.toLower)

/-- The `LocationCache._normalize_key` method of `mcp_weather/cache.py`:
strip and lowercase, replace runs of commas and whitespace with
underscores, collapse repeated underscores, drop a trailing underscore. -/
def normalize_key (location : String) : String :=
  let key := pyStripLower location
  let key := String.mk (collapseRuns isCacheSep '_' key.data)
  let key := String.mk (collapseRuns (fun c => c = '_') '_' key.data)
  String.mk (dropOneTrailing '_' key.data)

/-- The string `normalized` computed inside `RedisCacheClient._generate_key`
of `src/core/cache.py`: `key_base.lower().replace(" ", "")`.  The source
then returns the MD5 hex digest of this string; MD5 is a fixed
deterministic function, so two base strings yield the same cache key
exactly when they yield the same `normalized` string (no two distinct
`normalized` strings appearing in this development collide), and key
equality is reasoned about at this pre-hash level. -/
def generate_key_normalized (key_base : String) : String :=
  String.mk ((key_base.data.map Char.toLower).filter (fun c => !(c = ' ')))

/-- Value stored in a cache-entry dict (see the modelling conventions in
the file header for the `isoStamp`/`pstr` split). -/
inductive PyVal where
  | pstr (s : String)
  | pnum (q : ℚ)
  | isoStamp (t : Int)
  | pnone
deriving DecidableEq, Repr

/-- Python `datetime.fromisoformat` applied to a dict value: succeeds
exactly on strings that denote an instant; every other input raises
(`ValueError` for a non-ISO string, `TypeError` for a non-string). -/
def fromIso : PyVal → Option Int
  | .isoStamp t => some t
  | _ => none

/-- The `LocationData` class of `mcp_weather/cache.py`: cached coordinates
and metadata.  The payload fields hold whatever values the dict supplied —
the Python constructor performs no type checking — and `cached_at` is
always an instant (the constructor and `from_dict` default it to `now`). -/
structure LocationData where
  latitude : PyVal
  longitude : PyVal
  name : PyVal
  country : PyVal
  timezone : PyVal
  cached_at : Int
deriving DecidableEq, Repr

/-- The `LocationData.to_dict` method: serialize to a dict, with
`cached_at` rendered through `isoformat`. -/
def to_dict (d : LocationData) : List (String × PyVal) :=
  [("latitude", d.latitude), ("longitude", d.longitude), ("name", d.name),
   ("country", d.country), ("timezone", d.timezone),
   ("cached_at", .isoStamp d.cached_at)]

/-- The `LocationData.from_dict` classmethod, at current time `now`:
an unparseable or absent `cached_at` falls back to `now` (the internal
`except (ValueError, TypeError)` handler, respectively the constructor
default); a missing `latitude`, `longitude` or `name` key raises
`KeyError`, modelled as `none`; `country` and `timezone` default to `""`
and `"auto"`. -/
def from_dict (now : Int) (data : List (String × PyVal)) : Option LocationData :=
  let ts : Int :=
    match aget data "cached_at" with
    | some v => (fromIso v).getD now
    | none => now
  match aget data "latitude", aget data "longitude", aget data "name" with
  | some la, some lo, some na =>
    some { latitude := la, longitude := lo, name := na,
           country := (aget data "country").getD (.pstr ""),
           timezone := (aget data "timezone").getD (.pstr "auto"),
           cached_at := ts }
  | _, _, _ => none

/-- The `LocationData.is_expired` method at current time `now`:
`datetime.now() - self.cached_at > timedelta(days = expiry_days)`. -/
def is_expired (now : Int) (expiry_days : Int) (d : LocationData) : Bool :=
  decide (now - d.cached_at > expiry_days * 86400)

/-- The persisted cache store: a JSON object mapping normalized keys to
entry dicts. -/
abbrev Store : Type := List (String × List (String × PyVal))

/-- The shared body of both branches of `LocationCache.get`: look up the
normalized key, treat an absent or empty (falsy) entry dict as a miss,
treat a `from_dict` failure as a miss, and filter out expired records. -/
def lookupEntry (now expiry_days : Int) (store : Store) (key : String) :
    Option LocationData :=
  match aget store key with
  | none => none
  | some entry =>
    if entry.isEmpty then none
    else
      match from_dict now entry with
      | none => none
      | some ld => if is_expired now expiry_days ld then none else some ld

/-- The `LocationCache.get` method of `mcp_weather/cache.py`.  The source
first parses the location and branches on whether a state or country
component is (truthily) present; the two branches execute the same
lookup-exact-key/expiry/invalid-entry logic, which never consults any
other key. -/
def cacheGet (now expiry_days : Int) (store : Store) (location : String) :
    Option LocationData :=
  let parsed := cacheParseLocation location
  if truthy parsed.2.1 || truthy parsed.2.2 then
    lookupEntry now expiry_days store (normalize_key location)
  else
    lookupEntry now expiry_days store (normalize_key location)

/-- The `LocationCache.set` method: refresh `cached_at` to the current
time and store the serialized record under the normalized key. -/
def cacheSet (now : Int) (store : Store) (location : String)
    (data : LocationData) : Store :=
  aset store (normalize_key location) (to_dict { data with cached_at := now })

/-- The predicate deciding which entries `LocationCache.clean_expired`
keeps: the entry parses and is not expired (any exception from
`from_dict` drops the entry). -/
def keepEntry (now expiry_days : Int) (kv : String × List (String × PyVal)) : Bool :=
  match from_dict now kv.2 with
  | some ld => !is_expired now expiry_days ld
  | none => false

/-- The `LocationCache.clean_expired` method: filter the store down to
parseable unexpired entries and return the number removed (original size
minus cleaned size) together with the cleaned store. -/
def clean_expired (now expiry_days : Int) (store : Store) : Nat × Store :=
  let cleaned := List.filter (keepEntry now expiry_days) store
  (store.length - cleaned.length, cleaned)

/-- One result row of the Open-Meteo geocoding provider, as consumed by
`GeocodingService.geocode_location` (per the provider contract each row
carries these fields; the source reads the string fields through
`r.get(..., "")`). -/
structure GeoResult where
  name : String
  admin1 : String
  country : String
  latitude : ℚ
  longitude : ℚ
  timezone : String
deriving DecidableEq, Repr

/-- The state-name preprocessing of Case 1 in `geocode_location`
(lines 231-239): the full name and the abbreviation of the queried state,
each falling back to the raw state string when a table lookup misses. -/
def stateFullAbbr (state : String) : String × String :=
  if (aget US_STATES (pyUpper state)).isSome then
    ((aget US_STATES (pyUpper state)).getD state, pyUpper state)
  else
    let abbr := (aget US_STATES_REVERSE (pyLower state)).getD state
    ((aget US_STATES abbr).getD state, abbr)

/-- The Case 1 candidate filter of `geocode_location` (lines 244-256):
city name equal (case-insensitive), country containing "united states",
and admin1 containing the state's full name, abbreviation, or the raw
state string (case-insensitive substring, any one sufficing). -/
def usStateMatch (city state : String) (r : GeoResult) : Bool :=
  let p := stateFullAbbr state
  let rCity := pyLower r.name
  let rAdmin1 := pyLower r.admin1
  let rCountry := pyLower r.country
  rCity = pyLower city &&
    pyIn "united states" (pyLower rCountry) &&
    (pyIn (pyLower p.1) rAdmin1 || pyIn (pyLower p.2) rAdmin1 ||
     pyIn (pyLower state) rAdmin1)

/-- The `is_us_query` flag of Case 2 in `geocode_location`. -/
def isUsQuery (country : String) : Bool :=
  pyLower country = "united states" ||
    (["us", "usa", "u.s.", "u.s.a."].contains (pyLower country))

/-- The country-match predicate of Case 2 in `geocode_location`:
containment of "united states" for US queries, substring containment in
either direction otherwise. -/
def countryMatch (country : String) (r : GeoResult) : Bool :=
  let rCountry := pyLower r.country
  if isUsQuery country then pyIn "united states" rCountry
  else pyIn (pyLower country) rCountry || pyIn rCountry (pyLower country)

/-- The first-pass predicate of Case 2 in `geocode_location`: exact
city-name match (case-insensitive) plus the country match. -/
def exactIntlMatch (city country : String) (r : GeoResult) : Bool :=
  pyLower r.name = pyLower city && countryMatch country r

/-- The result-selection logic of `geocode_location` (lines 219-310),
the `select` operation of the specification: Case 1 keeps the first
US-state match and stops; Case 2 keeps all exact city+country matches,
or, when there are none, all country matches; the first filtered result
wins, and with no filtered results the provider's first result is used. -/
def selectResult (city : String) (state country : Option String)
    (results : List GeoResult) : Option GeoResult :=
  let filtered : List GeoResult :=
    if truthy state && truthy country &&
        pyIn "united states" (pyLower (country.getD "")) then
      match results.find? (usStateMatch city (state.getD "")) with
      | some r => [r]
      | none => []
    else if truthy country then
      let c := country.getD ""
      let pass1 := results.filter (exactIntlMatch city c)
      if pass1.isEmpty then results.filter (countryMatch c) else pass1
    else []
  match filtered with
  | r :: _ => some r
  | [] => results.head?

/-- The `LocationData` class of `mcp_weather/models.py`, as constructed by
`geocode_location` from the chosen provider result (its `cached_at`
default plays no role there). -/
structure GeoLocationData where
  latitude : ℚ
  longitude : ℚ
  name : String
  country : String
  timezone : String
deriving DecidableEq, Repr

/-- Outcome of the HTTP call to the geocoding provider as `geocode_location`
observes it: either a reply with a status code, a body text and the parsed
optional `results` array (`data.get("results")` is `none` when the key is
absent), or a network failure (`aiohttp.ClientError`, e.g. connection
refused). -/
inductive ProviderOutcome where
  | reply (status : Nat) (text : String) (results : Option (List GeoResult))
  | networkFailure
deriving DecidableEq, Repr

/-- A raised `fastapi.HTTPException`, carrying its status code and detail
string. -/
inductive GeoFailure where
  | httpFailure (statusCode : Nat) (detail : String)
deriving DecidableEq, Repr

/-- The `GeocodingService.geocode_location` method of
`mcp_weather/geocoding_service.py`, as a function of the provider-call
outcome: a non-200 status raises an `HTTPException` carrying that status
and the body truncated to 100 characters; a missing or empty `results`
array raises 404; a network failure raises 503; otherwise the parsed
location drives `selectResult` and the chosen row (defaulting to the
provider's first row) is packaged as a `LocationData`. -/
def geocode_location (location : String) (outcome : ProviderOutcome) :
    Except GeoFailure GeoLocationData :=
  match outcome with
  | .networkFailure =>
    .error (.httpFailure 503 "Geocoding service unavailable")
  | .reply status text resultsOpt =>
    if status ≠ 200 then
      .error (.httpFailure status ("Geocoding failed: " ++ strTake 100 text))
    else
      match resultsOpt with
      | none => .error (.httpFailure 404 ("Location not found: " ++ location))
      | some [] => .error (.httpFailure 404 ("Location not found: " ++ location))
      | some (r0 :: rest) =>
        let parsed := geoParseLocation location
        let chosen := (selectResult parsed.1 parsed.2.1 parsed.2.2 (r0 :: rest)).getD r0
        .ok { latitude := chosen.latitude, longitude := chosen.longitude,
              name := chosen.name, country := chosen.country,
              timezone := chosen.timezone }

/-! Helper lemmas about the embedded operations. -/

/-- Looking up a key immediately after assigning it yields the assigned
value. -/
theorem aget_aset_self {α : Type} (st : List (String × α)) (k : String) (v : α) :
    aget (aset st k v) k = some v := by
  induction st with
  | nil => simp [aset, aget]
  | cons p rest ih =>
    obtain ⟨q, w⟩ := p
    by_cases h : q = k
    · simp [aset, aget, h]
    · simp [aset, aget, h, ih]

/-- Both branches of `cacheGet` run the same exact-key lookup. -/
theorem cacheGet_eq (now expiry_days : Int) (store : Store) (location : String) :
    cacheGet now expiry_days store location =
      lookupEntry now expiry_days store (normalize_key location) := by
  unfold cacheGet
  exact ite_self _

/-- Deserializing a just-serialized record recovers it exactly. -/
theorem from_dict_to_dict (now : Int) (d : LocationData) :
    from_dict now (to_dict d) = some d := rfl

/-- The comma-splitting scanner always produces at least one segment. -/
theorem splitCommaAux_ne_nil (l acc : List Char) : splitCommaAux acc l ≠ [] := by
  induction l generalizing acc with
  | nil => simp [splitCommaAux]
  | cons c cs ih =>
    by_cases h : c = ','
    · simp [splitCommaAux, h]
    · simp only [splitCommaAux, h, if_false]
      exact ih _

/-- A location string always has at least one segment (Python `split`
never returns an empty list), so `parts[0]` never raises. -/
theorem segments_ne_nil (raw : String) : segments raw ≠ [] := by
  unfold segments
  simp only [ne_eq, List.map_eq_nil_iff]
  exact splitCommaAux_ne_nil _ _

/-- Splitting a comma-free character list yields the single segment
consisting of the accumulator followed by the rest. -/
theorem splitCommaAux_no_comma (l : List Char) (acc : List Char)
    (h : ∀ c ∈ l, ¬(c = ',')) : splitCommaAux acc l = [acc.reverse ++ l] := by
  induction l generalizing acc with
  | nil => simp [splitCommaAux]
  | cons c cs ih =>
    have hc := h c (by simp)
    simp only [splitCommaAux, hc, if_false]
    rw [ih (c :: acc) (fun x hx => h x (by simp [hx]))]
    simp

/-- Filtering removes from the length exactly the number of elements the
predicate rejects. -/
theorem length_sub_filter {α : Type} (p : α → Bool) (l : List α) :
    l.length - (l.filter p).length = l.countP (fun a => !(p a)) := by
  induction l with
  | nil => rfl
  | cons a l ih =>
    have hle := List.length_filter_le p l
    by_cases h : p a
    · simp [List.filter_cons, h, List.countP_cons, ← ih]
    · simp [List.filter_cons, h, List.countP_cons, ← ih]
      omega

/-- When the exact key holds a non-empty entry that deserializes to an
unexpired record, the lookup returns that record. -/
theorem lookupEntry_some (now expiry_days : Int) (store : Store) (key : String)
    (entry : List (String × PyVal)) (rec : LocationData)
    (ha : aget store key = some entry) (hne : entry.isEmpty = false)
    (hf : from_dict now entry = some rec)
    (hx : is_expired now expiry_days rec = false) :
    lookupEntry now expiry_days store key = some rec := by
  simp [lookupEntry, ha, hne, hf, hx]

/-- Sample cached record used by the concrete theorems and witnesses. -/
def sampleRec : LocationData :=
  { latitude := .pnum 48, longitude := .pnum 2, name := .pstr "Paris",
    country := .pstr "France", timezone := .pstr "auto", cached_at := 17 }

/-! Claim theorems. -/

/-- C1: for every raw location string whose parse yields a non-null state
or country, `get` returns a record only when the store holds an entry at
the exact normalized key of the full raw string (the returned record
deserializes from that very entry and is unexpired); and with a store
containing only the key `"santiago_dominicanrepublic"`, `get` on
`"Santiago, Chile"` returns `none`. -/
theorem c1_no_fallback :
    (∀ (loc : String) (store : Store) (now expiry_days : Int) (rec : LocationData),
        (cacheParseLocation loc).2.1 ≠ none ∨ (cacheParseLocation loc).2.2 ≠ none →
        cacheGet now expiry_days store loc = some rec →
        ∃ entry, aget store (normalize_key loc) = some entry ∧
          from_dict now entry = some rec ∧
          is_expired now expiry_days rec = false) ∧
    (∀ (now expiry_days : Int) (entry : List (String × PyVal)),
        cacheGet now expiry_days [("santiago_dominicanrepublic", entry)]
          "Santiago, Chile" = none) := by
  constructor
  · intro loc store now expiry_days rec _ hget
    rw [cacheGet_eq] at hget
    unfold lookupEntry at hget
    rcases ha : aget store (normalize_key loc) with _ | entry <;> rw [ha] at hget
    · exact absurd hget (by simp)
    · dsimp only at hget
      refine ⟨entry, rfl, ?_⟩
      by_cases he : entry.isEmpty = true
      · rw [if_pos he] at hget; exact absurd hget (by simp)
      · rw [if_neg he] at hget
        rcases hf : from_dict now entry with _ | ld <;> rw [hf] at hget
        · exact absurd hget (by simp)
        · dsimp only at hget
          by_cases hx : is_expired now expiry_days ld = true
          · rw [if_pos hx] at hget; exact absurd hget (by simp)
          · rw [if_neg hx] at hget
            obtain rfl : ld = rec := Option.some.inj hget
            exact ⟨rfl, Bool.eq_false_iff.mpr hx⟩
  · intro now expiry_days entry
    rw [cacheGet_eq]
    unfold lookupEntry
    have ha : aget [("santiago_dominicanrepublic", entry)]
        (normalize_key "Santiago, Chile") = none := by
      simp only [aget]
      rw [if_neg (by decide)]
    rw [ha]

/-- Witness for C1: a store holding `"Paris, France"` under its exact
normalized key does produce a hit, through the exact-key characterization. -/
theorem c1_no_fallback_witness :
    ∃ entry, aget [("paris_france", to_dict sampleRec)]
        (normalize_key "Paris, France") = some entry ∧
      from_dict 17 entry = some sampleRec ∧
      is_expired 17 30 sampleRec = false :=
  c1_no_fallback.1 "Paris, France" [("paris_france", to_dict sampleRec)] 17 30 sampleRec
    (by decide) (by decide)

/-- C4: the error taxonomy of `geocode_location` — a successful provider
reply with a missing or empty results list fails with 404 not-found; a
non-success status fails with an error carrying that status and the body
truncated to 100 characters; a network failure fails with 503; no record
is returned in any of these cases. -/
theorem c4_error_taxonomy :
    (∀ (loc text : String),
        geocode_location loc (.reply 200 text none) =
          .error (.httpFailure 404 ("Location not found: " ++ loc))) ∧
    (∀ (loc text : String),
        geocode_location loc (.reply 200 text (some [])) =
          .error (.httpFailure 404 ("Location not found: " ++ loc))) ∧
    (∀ (loc : String) (status : Nat) (text : String)
        (results : Option (List GeoResult)), status ≠ 200 →
        geocode_location loc (.reply status text results) =
          .error (.httpFailure status ("Geocoding failed: " ++ strTake 100 text))) ∧
    (∀ loc : String,
        geocode_location loc .networkFailure =
          .error (.httpFailure 503 "Geocoding service unavailable")) := by
  refine ⟨fun loc text => rfl, fun loc text => rfl, ?_, fun loc => rfl⟩
  intro loc status text results h
  simp [geocode_location, h]

/-- Witness for C4: a 500 reply from the provider surfaces as a 500
failure with the truncated body. -/
theorem c4_error_taxonomy_witness :
    geocode_location "Paris" (.reply 500 "Internal Server Error" none) =
      .error (.httpFailure 500 ("Geocoding failed: " ++ strTake 100 "Internal Server Error")) :=
  c4_error_taxonomy.2.2.1 "Paris" 500 "Internal Server Error" none (by decide)

/-- C5: a record whose `cached_at` is older than `expiry_days` is excluded
from `get` results, and `clean_expired` keeps exactly the parseable
unexpired entries, returning the number removed — the store size before
minus the store size after, which equals the count of expired-or-invalid
entries. -/
theorem c5_expiry :
    (∀ (loc : String) (store : Store) (now expiry_days : Int)
        (entry : List (String × PyVal)) (rec : LocationData),
        aget store (normalize_key loc) = some entry →
        from_dict now entry = some rec →
        is_expired now expiry_days rec = true →
        cacheGet now expiry_days store loc = none) ∧
    (∀ (now expiry_days : Int) (store : Store),
        (clean_expired now expiry_days store).2 =
          store.filter (keepEntry now expiry_days) ∧
        (clean_expired now expiry_days store).1 =
          store.countP (fun kv => !(keepEntry now expiry_days kv)) ∧
        (clean_expired now expiry_days store).1 =
          store.length - (clean_expired now expiry_days store).2.length) := by
  constructor
  · intro loc store now expiry_days entry rec ha hf hx
    rw [cacheGet_eq]
    unfold lookupEntry
    rw [ha]
    dsimp only
    by_cases he : entry.isEmpty = true
    · rw [if_pos he]
    · rw [if_neg he, hf]
      dsimp only
      rw [if_pos hx]
  · intro now expiry_days store
    exact ⟨rfl, length_sub_filter _ _, rfl⟩

/-- Witness for C5: a record cached at time 17 is no longer returned
31 days later under a 30-day expiry. -/
theorem c5_expiry_witness :
    cacheGet (17 + 31 * 86400) 30 [("paris_france", to_dict sampleRec)]
      "Paris, France" = none :=
  c5_expiry.1 "Paris, France" [("paris_france", to_dict sampleRec)] (17 + 31 * 86400) 30
    (to_dict sampleRec) sampleRec (by decide) (by decide) (by decide)

/-- C6: immediately after `set`, `get` on the same raw location returns
the stored record with every payload field intact and `cached_at`
refreshed to the current time, whenever `expiry_days` is positive. -/
theorem c6_roundtrip (loc : String) (rec : LocationData) (store : Store)
    (now expiry_days : Int) (hdays : 0 < expiry_days) :
    cacheGet now expiry_days (cacheSet now store loc rec) loc =
      some { rec with cached_at := now } := by
  rw [cacheGet_eq]
  unfold cacheSet
  refine lookupEntry_some now expiry_days _ _ _ _ (aget_aset_self _ _ _) rfl
    (from_dict_to_dict _ _) ?_
  simp only [is_expired]
  rw [decide_eq_false_iff_not]
  intro hgt
  simp only [sub_self] at hgt
  omega

/-- Witness for C6: the round-trip at a concrete location, record, time
and positive expiry window. -/
theorem c6_roundtrip_witness :
    cacheGet 5 30 (cacheSet 5 [] "Paris, France" sampleRec) "Paris, France" =
      some { sampleRec with cached_at := 5 } :=
  c6_roundtrip "Paris, France" sampleRec [] 5 30 (by decide)

/-- C10: the file-backed key normalization collapses runs of commas and
whitespace into one underscore, so the space-separated and the
comma-separated forms of the same city-country pair share one cache key —
an entry written under one is read back and overwritten through the
other — even though only the comma-separated form parses with a country
component. -/
theorem c10_shared_key :
    normalize_key "Paris France" = "paris_france" ∧
    normalize_key "Paris, France" = "paris_france" ∧
    cacheParseLocation "Paris France" = ("Paris France", none, none) ∧
    cacheParseLocation "Paris, France" = ("Paris", none, some "France") ∧
    cacheGet 0 30 (cacheSet 0 [] "Paris, France" sampleRec) "Paris France" =
      some { sampleRec with cached_at := 0 } ∧
    cacheSet 0 (cacheSet 0 [] "Paris, France" sampleRec) "Paris France"
        { sampleRec with name := .pstr "Paname" } =
      [("paris_france", to_dict { sampleRec with name := .pstr "Paname", cached_at := 0 })] := by
  decide

/-- C2: with a state set and a country resolving to United States, the
selection returns the first candidate, in provider order, satisfying the
US-state predicate — city name equal case-insensitively, country
containing "united states", admin1 containing the state's full name,
abbreviation, or raw string. -/
theorem c2_us_state_disambiguation (city st co : String) (results : List GeoResult)
    (c : GeoResult) (hst : st ≠ "")
    (hco : pyIn "united states" (pyLower co) = true)
    (hfind : results.find? (usStateMatch city st) = some c) :
    selectResult city (some st) (some co) results = some c := by
  have hco' : co ≠ "" := by
    intro h
    subst h
    exact absurd hco (by decide)
  have h1 : truthy (some st) = true := by simp [truthy, hst]
  have h2 : truthy (some co) = true := by simp [truthy, hco']
  unfold selectResult
  simp only [Option.getD_some, h1, h2, hco, Bool.and_self, Bool.true_and, if_true, hfind]

/-- Witness for C2: the Cleveland, GA query picks the Georgia candidate
over the provider-first Ohio one. -/
theorem c2_us_state_disambiguation_witness :
    selectResult "Cleveland" (some "GA") (some "United States")
      [⟨"Cleveland", "Ohio", "United States", 41, -81, "America/New_York"⟩,
       ⟨"Cleveland", "Georgia", "United States", 34, -83, "America/New_York"⟩] =
      some ⟨"Cleveland", "Georgia", "United States", 34, -83, "America/New_York"⟩ :=
  c2_us_state_disambiguation "Cleveland" "GA" "United States"
    [⟨"Cleveland", "Ohio", "United States", 41, -81, "America/New_York"⟩,
     ⟨"Cleveland", "Georgia", "United States", 34, -83, "America/New_York"⟩]
    ⟨"Cleveland", "Georgia", "United States", 34, -83, "America/New_York"⟩
    (by decide) (by decide) (by decide)

/-- Counterexample to C7: `"Paris"` and `"Paris\t"` differ only in
trailing whitespace (their stripped lowercased cores coincide), the
file-backed normalization maps them to one key, but the remote key
derivation feeds two different strings to the hash, because
`replace(" ", "")` removes only space characters and the raw string is
not stripped. -/
theorem c7_counterexample :
    ("Paris" : String) ≠ "Paris\t" ∧
    pyStripLower "Paris" = pyStripLower "Paris\t" ∧
    normalize_key "Paris" = normalize_key "Paris\t" ∧
    generate_key_normalized "Paris" ≠ generate_key_normalized "Paris\t" := by
  decide

/-- C7 as amended: the file-backed normalization identifies all strings
with equal stripped lowercased cores; the remote derivation identifies
strings equal up to letter case, and is insensitive to surrounding
space characters (but not, per the counterexample, to other
whitespace). -/
theorem c7_amended_keys :
    (∀ s1 s2 : String, pyStripLower s1 = pyStripLower s2 →
        normalize_key s1 = normalize_key s2) ∧
    (∀ s1 s2 : String, pyLower s1 = pyLower s2 →
        generate_key_normalized s1 = generate_key_normalized s2) ∧
    (∀ l s r : String, (∀ c ∈ l.data, c = ' ') → (∀ c ∈ r.data, c = ' ') →
        generate_key_normalized (l ++ s ++ r) = generate_key_normalized s) := by
  have hsp : ∀ (xs : List Char), (∀ c ∈ xs, c = ' ') →
      (xs.map Char.toLower).filter (fun c => !(c = ' ')) = [] := by
    intro xs hxs
    rw [List.filter_eq_nil_iff]
    intro a ha
    obtain ⟨b, hb, rfl⟩ := List.mem_map.mp ha
    rw [hxs b hb]
    decide
  refine ⟨?_, ?_, ?_⟩
  · intro s1 s2 h
    unfold normalize_key
    rw [h]
  · intro s1 s2 h
    have h' : s1.data.map Char.toLower = s2.data.map Char.toLower :=
      congrArg String.data h
    unfold generate_key_normalized
    rw [h']
  · intro l s r hl hr
    have hd : (l ++ s ++ r).data = l.data ++ s.data ++ r.data := by
      cases l; cases s; cases r; rfl
    unfold generate_key_normalized
    rw [hd, List.map_append, List.map_append, List.filter_append,
      List.filter_append, hsp l.data hl, hsp r.data hr]
    simp

/-- Witness for C7 as amended: concrete instances of all three
invariances. -/
theorem c7_amended_keys_witness :
    normalize_key "  PARIS, France " = normalize_key "paris, france" ∧
    generate_key_normalized "PARIS" = generate_key_normalized "paris" ∧
    generate_key_normalized ("  " ++ "Tokyo" ++ " ") = generate_key_normalized "Tokyo" :=
  ⟨c7_amended_keys.1 "  PARIS, France " "paris, france" (by decide),
   c7_amended_keys.2.1 "PARIS" "paris" (by decide),
   c7_amended_keys.2.2 "  " "Tokyo" " " (by decide) (by decide)⟩

/-- Counterexample to C8: an entry with a wrong-typed `latitude` and an
unparseable `cached_at` is not treated as absent — `get` returns a
record built from it, with the bad latitude passed through verbatim and
`cached_at` silently replaced by the current time. -/
theorem c8_counterexample :
    cacheGet 0 30
        [("x_y", [("latitude", .pstr "not-a-number"), ("longitude", .pnum 2),
                  ("name", .pstr "X"), ("cached_at", .pstr "garbage")])]
        "X, Y" =
      some { latitude := .pstr "not-a-number", longitude := .pnum 2,
             name := .pstr "X", country := .pstr "", timezone := .pstr "auto",
             cached_at := 0 } := by
  decide

/-- C8 as amended: an entry missing any of the required `latitude`,
`longitude` or `name` keys behaves exactly as an absent entry (`get`
returns `none` without raising); but a present-yet-unparseable
`cached_at` does not make the entry absent — deserialization replaces it
with the current time, so the entry is served as fresh. -/
theorem c8_amended_malformed :
    (∀ (loc : String) (store : Store) (now expiry_days : Int)
        (entry : List (String × PyVal)),
        aget store (normalize_key loc) = some entry →
        aget entry "latitude" = none ∨ aget entry "longitude" = none ∨
          aget entry "name" = none →
        cacheGet now expiry_days store loc = none) ∧
    (∀ (now : Int) (entry : List (String × PyVal)) (v : PyVal) (rec : LocationData),
        aget entry "cached_at" = some v → fromIso v = none →
        from_dict now entry = some rec → rec.cached_at = now) := by
  constructor
  · intro loc store now expiry_days entry ha hmiss
    have hfd : from_dict now entry = none := by
      unfold from_dict
      rcases hA : aget entry "latitude" with _ | la <;>
        rcases hB : aget entry "longitude" with _ | lo <;>
          rcases hC : aget entry "name" with _ | na <;>
            simp_all
    rw [cacheGet_eq]
    unfold lookupEntry
    rw [ha]
    dsimp only
    by_cases he : entry.isEmpty = true
    · rw [if_pos he]
    · rw [if_neg he, hfd]
  · intro now entry v rec hca hiso hf
    unfold from_dict at hf
    simp only [hca, hiso, Option.getD_none] at hf
    rcases hA : aget entry "latitude" with _ | la <;>
      rcases hB : aget entry "longitude" with _ | lo <;>
        rcases hC : aget entry "name" with _ | na <;>
          simp only [hA, hB, hC] at hf <;>
            first
            | (obtain rfl := Option.some.inj hf; rfl)
            | exact absurd hf (by simp)

/-- Witness for C8 as amended: a missing `latitude` key yields a miss,
and the record deserialized from an entry with garbage `cached_at`
carries the current time. -/
theorem c8_amended_malformed_witness :
    cacheGet 0 30 [("a_b", [("longitude", PyVal.pnum 1)])] "A, B" = none ∧
    ({ latitude := PyVal.pstr "not-a-number", longitude := PyVal.pnum 2,
       name := PyVal.pstr "X", country := PyVal.pstr "", timezone := PyVal.pstr "auto",
       cached_at := 0 } : LocationData).cached_at = 0 :=
  ⟨c8_amended_malformed.1 "A, B" [("a_b", [("longitude", PyVal.pnum 1)])] 0 30
      [("longitude", PyVal.pnum 1)] (by decide) (by decide),
   c8_amended_malformed.2 0
      [("latitude", PyVal.pstr "not-a-number"), ("longitude", PyVal.pnum 2),
       ("name", PyVal.pstr "X"), ("cached_at", PyVal.pstr "garbage")]
      (PyVal.pstr "garbage") _ (by decide) (by decide) (by decide)⟩

/-- Counterexample to C9: the parsed city is the trimmed first
comma-delimited segment and can be empty — for the empty raw string and
for a raw string beginning with a comma — contradicting the invariant
that the city is always non-empty. -/
theorem c9_counterexample :
    (geoParseLocation "").1 = "" ∧ (geoParseLocation ", France").1 = "" := by
  decide

/-- C9 as amended: the parser is total — the split always yields at least
one segment, so taking segment 0 never fails — and the city is the
trimmed first segment, which may be empty (exactly for an empty or
whitespace-only first segment); a comma-free raw string degrades to
(stripped raw, null, null). -/
theorem c9_amended_totality :
    (∀ raw : String, segments raw ≠ []) ∧
    (∀ raw : String, (geoParseLocation raw).1 = (segments raw).getD 0 "") ∧
    (∀ raw : String, (∀ c ∈ raw.data, ¬(c = ',')) →
        geoParseLocation raw = (pyStrip raw, none, none)) ∧
    geoParseLocation "" = ("", none, none) := by
  refine ⟨segments_ne_nil, ?_, ?_, by decide⟩
  · intro raw
    rcases hs : segments raw with _ | ⟨a, _ | ⟨b, _ | ⟨c, rest⟩⟩⟩
    · simp [geoParseLocation, hs]
    · simp [geoParseLocation, hs]
    · simp only [geoParseLocation, hs]
      by_cases h1 : (aget US_STATES (pyUpper b)).isSome = true
      · simp [h1]
      · rcases h2 : aget US_STATES_REVERSE (pyLower b) with _ | ab
        · rcases h3 : aget COUNTRY_VARIATIONS (pyLower b) with _ | cn <;>
            simp [h1, h2, h3]
        · simp [h1, h2]
    · simp [geoParseLocation, hs]
  · intro raw hnc
    have hs : segments raw = [pyStrip raw] := by
      unfold segments
      rw [splitCommaAux_no_comma raw.data [] hnc]
      simp [pyStrip]
    unfold geoParseLocation
    rw [hs]

/-- Witness for C9 as amended: a comma-free location parses to the
degraded city-only form. -/
theorem c9_amended_totality_witness :
    geoParseLocation "Paris" = (pyStrip "Paris", none, none) :=
  c9_amended_totality.2.2.1 "Paris" (by decide)

/-- C3: the location-string parser implements the section 4.1 case
analysis of the specification — the two definitions agree on every raw
string — and in particular `"Cleveland, Georgia, USA"` parses to city
Cleveland, state GA, country United States. -/
theorem c3_parser_follows_spec41 :
    (∀ raw : String, geoParseLocation raw = parseSpec41 raw) ∧
    geoParseLocation "Cleveland, Georgia, USA" =
      ("Cleveland", some "GA", some "United States") := by
  constructor
  · intro raw
    rcases hs : segments raw with _ | ⟨a, _ | ⟨b, _ | ⟨c, _ | ⟨r, rs⟩⟩⟩⟩
    · simp [geoParseLocation, parseSpec41, hs]
    · simp [geoParseLocation, parseSpec41, hs]
    · by_cases h1 : (aget US_STATES (pyUpper b)).isSome = true
      · simp [geoParseLocation, parseSpec41, hs, h1]
      · rcases h2 : aget US_STATES_REVERSE (pyLower b) with _ | ab
        · rcases h3 : aget COUNTRY_VARIATIONS (pyLower b) with _ | cn <;>
            simp [geoParseLocation, parseSpec41, hs, h1, h2, h3]
        · simp [geoParseLocation, parseSpec41, hs, h1, h2]
    · rcases h2 : aget US_STATES_REVERSE (pyLower b) with _ | ab <;>
        rcases h3 : aget COUNTRY_VARIATIONS (pyLower c) with _ | cn <;>
          simp [geoParseLocation, parseSpec41, hs, h2, h3]
    · rcases h2 : aget US_STATES_REVERSE (pyLower b) with _ | ab <;>
        simp [geoParseLocation, parseSpec41, hs, h2]
  · decide

end McpWeather
